import Mathlib

/-
Verification of the onedocker runner (onedocker/onedocker_runner.py): a shallow
embedding of its package-name parsing, configuration resolution, executable
download bookkeeping, and supervised child-process run, with theorems about
each documented behavior.

External capabilities (the S3 storage client, psutil network counters, the OS
process table) are abstracted: the child's fate is an oracle input, the storage
copy is recorded as an effect, and network-counter deltas are tracked only as
"the net-usage log line was / was not emitted".
-/

set_option autoImplicit false

namespace OneDocker

/-- Signal number of SIGTERM, the signal run sends to the child's whole process
group on the abort path (os.killpg(proc.pid, signal.SIGTERM)). -/
def SIGTERM : Nat := 15

/-- Constant DEFAULT_REPOSITORY_PATH from the source: the s3 folder that the
executables are downloaded from when no override is given. -/
def DEFAULT_REPOSITORY_PATH : String :=
  "https://one-docker-repository.s3.us-west-1.amazonaws.com/"

/-- Constant DEFAULT_EXE_FOLDER from the source: the folder in the docker image
that is going to host the executables. -/
def DEFAULT_EXE_FOLDER : String := "/root/one_docker/package/"

/-- Python str.split with a one-character separator, acting on the character
list of the string: pySplit sep s.data agrees with s.split(sep) in Python.
Splitting the empty string yields [[]], and the result is never empty. -/
def pySplit (sep : Char) : List Char → List (List Char)
  | [] => [[]]
  | c :: cs =>
    let r := pySplit sep cs
    if c = sep then [] :: r else (c :: r.headI) :: r.tail

/-- Python str.upper, modelled character-wise: every lower-case ASCII letter
is replaced by its upper-case form. This agrees with Python on the ASCII
strings compared against the "LOCAL" sentinel. -/
def pyUpper (s : String) : String :=
  String.mk (s.data.map Char.toUpper)

/-- Exceptions of the modelled fragment: the IndexError raised by
package_name.split("/")[1] on a name without a slash, subprocess.TimeoutExpired
on timeout expiry, and the InterruptedError raised by the SIGINT handler. -/
inductive PyError where
  | indexError
  | timeoutExpired
  | interruptedError
  deriving Repr, DecidableEq

/-- Function _parse_package_name from the source: returns
(package_name.split("/")[0], package_name.split("/")[1]). Index [0] always
exists; the IndexError that indexing [1] raises when the split has a single
piece (no "/" in the name) is rendered as none. -/
def _parse_package_name (package_name : String) : Option (String × String) :=
  match pySplit '/' package_name.data with
  | s0 :: s1 :: _ => some (String.mk s0, String.mk s1)
  | _ => none

/-- One copy performed by the storage service: storage_svc.copy(src, dst). -/
structure CopyOp where
  src : String
  dst : String
  deriving Repr, DecidableEq

/-- Function _download_executables from the source: derives the S3 region from
repository_path (external S3Path helper, not modelled), parses the package
name — whose IndexError propagates — and asks the storage service to copy
repository_path ++ package_name to DEFAULT_EXE_FOLDER ++ exe_name. The region
derivation and the transfer itself belong to the external storage client and
are modelled as succeeding; the returned CopyOp records the request. -/
def _download_executables (repository_path package_name : String) :
    Except PyError CopyOp :=
  match _parse_package_name package_name with
  | none => .error .indexError
  | some (_team, exe_name) =>
      .ok { src := repository_path ++ package_name,
            dst := DEFAULT_EXE_FOLDER ++ exe_name }

/-- Oracle for the one blocking operation, proc.communicate(timeout=timeout):
the child completes with a return code (negative when killed by a signal), the
wait times out, or the SIGINT handler raises InterruptedError into the wait. -/
inductive WaitOutcome where
  | completed (return_code : Int)
  | timedOut
  | interrupted
  deriving Repr, DecidableEq

/-- How the run function ends: a plain return (the launcher then exits 0), a
sys.exit(code) call, or an exception propagating out of run. -/
inductive RunResult where
  | finished
  | sysExit (code : Int)
  | raised (e : PyError)
  deriving Repr, DecidableEq

/-- Observable side effects of one run invocation: logger.info lines, storage
copies, the chmod +x target paths, the command given to subprocess.Popen, the
proc.terminate() call, the signals sent to the child's process group, and
whether the net-usage line was logged (its byte values come from external
psutil counters and are not modelled). -/
structure RunEffects where
  logs : List String
  copies : List CopyOp
  chmodPaths : List String
  launchedCmd : Option String
  childTerminated : Bool
  groupSignals : List Nat
  netUsageLogged : Bool
  deriving Repr, DecidableEq

/-- The tail of run after the acquire step: parse the package name (IndexError
propagates), run chmod +x {exe_path}/{exe_name} (its result is not examined),
prepend exe_path to cmd when repository_path upper-cases to the LOCAL sentinel,
launch the command, and dispatch on the wait outcome: on timeout or interrupt
terminate the child, SIGTERM its process group and re-raise; on completion log
net usage, and on a non-zero return code log it and call sys.exit with it. -/
def run_after_acquire (repository_path exe_path cmd package_name : String)
    (logs0 : List String) (copies0 : List CopyOp) (wait : WaitOutcome) :
    RunResult × RunEffects :=
  match _parse_package_name package_name with
  | none =>
      (.raised .indexError,
        { logs := logs0, copies := copies0, chmodPaths := [],
          launchedCmd := none, childTerminated := false, groupSignals := [],
          netUsageLogged := false })
  | some (_team, exe_name) =>
      let chmodPath := exe_path ++ "/" ++ exe_name
      let cmd1 := if pyUpper repository_path = "LOCAL" then exe_path ++ cmd else cmd
      let logs1 := logs0 ++ ["Running cmd: " ++ cmd1 ++ " ..."]
      match wait with
      | .timedOut =>
          (.raised .timeoutExpired,
            { logs := logs1, copies := copies0, chmodPaths := [chmodPath],
              launchedCmd := some cmd1, childTerminated := true,
              groupSignals := [SIGTERM], netUsageLogged := false })
      | .interrupted =>
          (.raised .interruptedError,
            { logs := logs1, copies := copies0, chmodPaths := [chmodPath],
              launchedCmd := some cmd1, childTerminated := true,
              groupSignals := [SIGTERM], netUsageLogged := false })
      | .completed return_code =>
          if return_code ≠ 0 then
            (.sysExit return_code,
              { logs := logs1 ++
                  ["Subprocess returned non-zero return code: " ++
                    toString return_code],
                copies := copies0, chmodPaths := [chmodPath],
                launchedCmd := some cmd1, childTerminated := false,
                groupSignals := [], netUsageLogged := true })
          else
            (.finished,
              { logs := logs1, copies := copies0, chmodPaths := [chmodPath],
                launchedCmd := some cmd1, childTerminated := false,
                groupSignals := [], netUsageLogged := true })

/-- Function run from the source. When repository_path.upper() is not "LOCAL"
it logs and downloads (an IndexError from the parse inside the download
propagates before anything else happens); otherwise it logs the skip. It then
continues with run_after_acquire. Python str.upper is modelled by pyUpper.
chmod_ok stands for the success of the chmod child process, which the source
never examines (subprocess.run's result is discarded). -/
def run (repository_path exe_path package_name cmd : String)
    (chmod_ok : Bool) (wait : WaitOutcome) : RunResult × RunEffects :=
  let _ := chmod_ok
  if pyUpper repository_path ≠ "LOCAL" then
    match _download_executables repository_path package_name with
    | .error e =>
        (.raised e,
          { logs := ["Downloading executables ..."], copies := [],
            chmodPaths := [], launchedCmd := none, childTerminated := false,
            groupSignals := [], netUsageLogged := false })
    | .ok cp =>
        run_after_acquire repository_path exe_path cmd package_name
          ["Downloading executables ..."] [cp] wait
  else
    run_after_acquire repository_path exe_path cmd package_name
      ["Local repository, skip download ..."] [] wait

/-- Modelled from the spec: the CLI entry point that maps run's outcome to the
launcher's process exit status is not among the source files here. Per the
spec, "Exit status of the whole program is whatever the Process Runner's exit
propagation step produces, or a non-zero status if a fatal error was raised
anywhere upstream": a plain return of run gives the implicit zero exit,
sys.exit(c) gives status c, and a raised fatal error gives an unspecified
non-zero status, rendered none here. -/
def launcher_exit_status : RunResult → Option Int
  | .finished => some 0
  | .sysExit c => some c
  | .raised _ => none

/-- Python truthiness of an optional string: None and "" are falsy, every
non-empty string is truthy. -/
def pyTruthy : Option String → Bool
  | none => false
  | some s => !s.isEmpty

/-- Function _read_config from the source: first-match-wins over the program
argument, then the environment variable env_var (the process environment is
modelled as the lookup function env, with os.getenv returning none when the
variable is unset), then default_val; paired with the single logger.info line
the chosen branch emits. -/
def _read_config (config_name : String) (argument : Option String)
    (env : String → Option String) (env_var : String) (default_val : String) :
    Option String × List String :=
  if pyTruthy argument then
    (argument, ["Read " ++ config_name ++ " from program arguments..."])
  else if pyTruthy (env env_var) then
    (env env_var, ["Read " ++ config_name ++ " from environment variables..."])
  else
    (some default_val, ["Read " ++ config_name ++ " from default value..."])

example : _parse_package_name "team/exe" = some ("team", "exe") := by decide

example : _parse_package_name "a/b/c" = some ("a", "b") := by decide

example : _parse_package_name "noslash" = none := by decide

example : _parse_package_name "/exe" = some ("", "exe") := by decide

example : _parse_package_name "team/" = some ("team", "") := by decide

/-- Splitting never produces the empty list of pieces. -/
theorem pySplit_ne_nil (sep : Char) (l : List Char) : pySplit sep l ≠ [] := by
  cases l with
  | nil => simp [pySplit]
  | cons c cs => simp only [pySplit]; split <;> simp

/-- Unfolding equation for pySplit on a cons cell. -/
theorem pySplit_cons (sep c : Char) (cs : List Char) :
    pySplit sep (c :: cs) =
      if c = sep then [] :: pySplit sep cs
      else (c :: (pySplit sep cs).headI) :: (pySplit sep cs).tail := rfl

/-- The split has at least two pieces exactly when the separator occurs. -/
theorem two_le_length_pySplit (sep : Char) (l : List Char) :
    2 ≤ (pySplit sep l).length ↔ sep ∈ l := by
  induction l with
  | nil => simp [pySplit]
  | cons c cs ih =>
    have hlen : 0 < (pySplit sep cs).length :=
      List.length_pos.mpr (pySplit_ne_nil sep cs)
    by_cases h : c = sep
    · subst h
      rw [pySplit_cons, if_pos rfl]
      simp only [List.length_cons, List.mem_cons, true_or, iff_true]
      omega
    · rw [pySplit_cons, if_neg h]
      simp only [List.length_cons, List.length_tail, List.mem_cons]
      constructor
      · intro hle
        exact Or.inr (ih.mp (by omega))
      · intro hm
        rcases hm with hm | hm
        · exact absurd hm.symm h
        · have := ih.mpr hm
          omega

/-- Splitting a list whose head part is separator-free peels that part off. -/
theorem pySplit_append (sep : Char) (t l : List Char) (h : sep ∉ t) :
    pySplit sep (t ++ sep :: l) = t :: pySplit sep l := by
  induction t with
  | nil => rw [List.nil_append, pySplit_cons, if_pos rfl]
  | cons c t' ih =>
    have hc : c ≠ sep := fun e => h (e ▸ List.mem_cons_self c t')
    have ht' : sep ∉ t' := fun hm => h (List.mem_cons_of_mem _ hm)
    rw [List.cons_append, pySplit_cons, if_neg hc, ih ht']
    rfl

/-- The first piece of the split is the longest separator-free front. -/
theorem headI_pySplit (sep : Char) (l : List Char) :
    (pySplit sep l).headI = l.takeWhile (fun c => c != sep) := by
  induction l with
  | nil => simp [pySplit]
  | cons c cs ih =>
    by_cases h : c = sep
    · subst h
      rw [pySplit_cons, if_pos rfl]
      simp [List.takeWhile_cons]
    · rw [pySplit_cons, if_neg h]
      simp [List.takeWhile_cons, h, ih]

/-- A separator-free list splits into the single piece that is itself. -/
theorem pySplit_eq_singleton (sep : Char) (l : List Char) (h : sep ∉ l) :
    pySplit sep l = [l] := by
  induction l with
  | nil => rfl
  | cons c cs ih =>
    have hc : c ≠ sep := fun e => h (e ▸ List.mem_cons_self c cs)
    have hcs : sep ∉ cs := fun hm => h (List.mem_cons_of_mem _ hm)
    rw [pySplit_cons, if_neg hc, ih hcs]
    rfl

/-- C5 counterexample: a package name with an empty team segment, one with an
empty executable segment, and one with two separators are all parsed
successfully, although the claim says every such name must fail. -/
theorem parse_empty_segment_succeeds :
    _parse_package_name "/exe" = some ("", "exe") ∧
    _parse_package_name "team/" = some ("team", "") ∧
    (_parse_package_name "a/b/c").isSome = true := by
  exact ⟨by decide, by decide, by decide⟩

/-- C5 (amended): parsing a package_name fails with the index/lookup failure
exactly when the name contains no '/' at all; every name containing at least
one '/' parses successfully, even with empty segments or several '/'. -/
theorem parse_package_name_none_iff (s : String) :
    _parse_package_name s = none ↔ '/' ∉ s.data := by
  rw [← two_le_length_pySplit '/' s.data]
  unfold _parse_package_name
  rcases hr : pySplit '/' s.data with _ | ⟨s0, _ | ⟨s1, rest⟩⟩
  · exact absurd hr (pySplit_ne_nil '/' s.data)
  · exact iff_of_true rfl (by simp)
  · exact iff_of_false (fun h => Option.noConfusion h)
      (by simp only [List.length_cons, not_not]; omega)

/-- C6 counterexample: on "a/b/c" the parser returns ("a", "b"), not the
("a", "b/c") that taking the entire substring after the first '/' would give. -/
theorem parse_multi_slash_counterexample :
    _parse_package_name "a/b/c" = some ("a", "b") ∧
    _parse_package_name "a/b/c" ≠ some ("a", "b/c") := by
  exact ⟨by decide, by decide⟩

/-- C6 (amended): for every name of the form t ++ "/" ++ rest with '/'-free t,
the parser returns t as team and, as exe_name, only the piece of rest before
its first '/' (the segment between the first two separators of the whole
name); in particular every "team/exe" whose segments hold no further '/'
parses to exactly (team, exe). -/
theorem parse_package_name_split (t rest e : String)
    (ht : '/' ∉ t.data) (he : '/' ∉ e.data) :
    _parse_package_name (t ++ "/" ++ rest) =
      some (t, String.mk (rest.data.takeWhile (fun c => c != '/'))) ∧
    _parse_package_name (t ++ "/" ++ e) = some (t, e) := by
  have key : ∀ r : String, _parse_package_name (t ++ "/" ++ r) =
      some (t, String.mk (r.data.takeWhile (fun c => c != '/'))) := by
    intro r
    have hslash : ("/" : String).data = ['/'] := rfl
    have hdata : (t ++ "/" ++ r).data = t.data ++ '/' :: r.data := by
      rw [String.data_append, String.data_append, hslash, List.append_assoc,
        List.singleton_append]
    unfold _parse_package_name
    rw [hdata, pySplit_append '/' t.data r.data ht]
    rcases hr : pySplit '/' r.data with _ | ⟨s1, rest'⟩
    · exact absurd hr (pySplit_ne_nil '/' r.data)
    · have hs1 : s1 = r.data.takeWhile (fun c => c != '/') := by
        have hh := headI_pySplit '/' r.data
        rw [hr] at hh
        simpa using hh
      rw [hs1]
  refine ⟨key rest, ?_⟩
  rw [key e]
  have hself : e.data.takeWhile (fun c => c != '/') = e.data := by
    refine List.takeWhile_eq_self_iff.mpr ?_
    intro x hx
    have hxe : x ≠ '/' := fun hxe => he (hxe ▸ hx)
    simpa using hxe
  rw [hself]

/-- C6 witness: a conforming two-segment name parses to its two segments. -/
theorem parse_package_name_split_witness :
    _parse_package_name ("team" ++ "/" ++ "exe") = some ("team", "exe") :=
  (parse_package_name_split "team" "exe" "exe" (by decide) (by decide)).2

/-- C3: _read_config returns the argument when it is a non-empty string and
logs the program-arguments source; otherwise the environment variable's value
when that one is set and non-empty, logging the environment source; otherwise
the default, logging the default source. Each tier's outcome is stated for an
arbitrary state of the lower tiers, and in every case the log is exactly one
line naming the configuration key and the source used. -/
theorem read_config_precedence (config_name : String) (argument : Option String)
    (env : String → Option String) (env_var default_val : String) :
    (∀ a : String, argument = some a → a ≠ "" →
      _read_config config_name argument env env_var default_val =
        (some a, ["Read " ++ config_name ++ " from program arguments..."])) ∧
    (pyTruthy argument = false → ∀ e : String, env env_var = some e → e ≠ "" →
      _read_config config_name argument env env_var default_val =
        (some e, ["Read " ++ config_name ++ " from environment variables..."])) ∧
    (pyTruthy argument = false → pyTruthy (env env_var) = false →
      _read_config config_name argument env env_var default_val =
        (some default_val, ["Read " ++ config_name ++ " from default value..."])) := by
  refine ⟨?_, ?_, ?_⟩
  · intro a ha hne
    subst ha
    have hemp : a.isEmpty = false := by
      cases hbe : a.isEmpty
      · rfl
      · exact absurd ((String.isEmpty_iff _).mp hbe) hne
    unfold _read_config
    rw [if_pos (show pyTruthy (some a) = true by simp [pyTruthy, hemp])]
  · intro hfa e he hne
    have hemp : e.isEmpty = false := by
      cases hbe : e.isEmpty
      · rfl
      · exact absurd ((String.isEmpty_iff _).mp hbe) hne
    unfold _read_config
    rw [if_neg (by simp [hfa]), he,
      if_pos (show pyTruthy (some e) = true by simp [pyTruthy, hemp])]
  · intro hfa hfe
    unfold _read_config
    rw [if_neg (by simp [hfa]), if_neg (by simp [hfe])]

/-- C3 witness: with the argument present, resolution returns it and logs the
program-arguments source, whatever the environment holds. -/
theorem read_config_precedence_witness :
    _read_config "repository_path" (some "A") (fun _ => some "E")
        "ONEDOCKER_REPOSITORY_PATH" "D" =
      (some "A", ["Read " ++ "repository_path" ++ " from program arguments..."]) :=
  (read_config_precedence "repository_path" (some "A") (fun _ => some "E")
      "ONEDOCKER_REPOSITORY_PATH" "D").1 "A" rfl (by decide)

/-- C7: _read_config always produces a string: whatever the argument, the
environment and the default, its result is never the missing value — in
particular the environment tier, guarded by the variable being set and
non-empty, cannot return None. -/
theorem read_config_total (config_name : String) (argument : Option String)
    (env : String → Option String) (env_var default_val : String) :
    ((_read_config config_name argument env env_var default_val).1).isSome = true := by
  unfold _read_config
  by_cases ha : pyTruthy argument = true
  · rw [if_pos ha]
    rcases argument with _ | a
    · simp [pyTruthy] at ha
    · rfl
  · rw [if_neg ha]
    by_cases he : pyTruthy (env env_var) = true
    · rw [if_pos he]
      rcases henv : env env_var with _ | e
      · rw [henv] at he
        simp [pyTruthy] at he
      · rfl
    · rw [if_neg he]
      rfl

/-- C1: when the child completes with exit code 0, run returns normally and
the launcher's exit status is 0; when it completes with any non-zero code c,
run logs that code and calls sys.exit(c), making c the launcher's exit
status. -/
theorem run_exit_propagation (rp ep pn cmd : String) (ok : Bool) (c : Int)
    (hpn : (_parse_package_name pn).isSome = true) :
    ((run rp ep pn cmd ok (.completed 0)).1 = .finished ∧
      launcher_exit_status (run rp ep pn cmd ok (.completed 0)).1 = some 0) ∧
    (c ≠ 0 →
      (run rp ep pn cmd ok (.completed c)).1 = .sysExit c ∧
      ("Subprocess returned non-zero return code: " ++ toString c) ∈
        (run rp ep pn cmd ok (.completed c)).2.logs ∧
      launcher_exit_status (run rp ep pn cmd ok (.completed c)).1 = some c) := by
  obtain ⟨⟨team, exe⟩, hp⟩ := Option.isSome_iff_exists.mp hpn
  constructor
  · by_cases hL : pyUpper rp = "LOCAL" <;>
      simp [run, _download_executables, run_after_acquire, hp, hL,
        launcher_exit_status]
  · intro hc
    by_cases hL : pyUpper rp = "LOCAL" <;>
      simp [run, _download_executables, run_after_acquire, hp, hL, hc,
        launcher_exit_status]

/-- C1 witness: a concrete local invocation whose child exits 0 finishes with
launcher status 0, and one whose child exits 7 exits with status 7 after
logging it. -/
theorem run_exit_propagation_witness :
    ((run "LOCAL" "/p/" "team/exe" "./exe" true (.completed 0)).1 = .finished ∧
      launcher_exit_status
        (run "LOCAL" "/p/" "team/exe" "./exe" true (.completed 0)).1 = some 0) ∧
    ((run "LOCAL" "/p/" "team/exe" "./exe" true (.completed 7)).1 = .sysExit 7 ∧
      ("Subprocess returned non-zero return code: " ++ toString (7 : Int)) ∈
        (run "LOCAL" "/p/" "team/exe" "./exe" true (.completed 7)).2.logs ∧
      launcher_exit_status
        (run "LOCAL" "/p/" "team/exe" "./exe" true (.completed 7)).1 = some 7) :=
  ⟨(run_exit_propagation "LOCAL" "/p/" "team/exe" "./exe" true 7 (by decide)).1,
    (run_exit_propagation "LOCAL" "/p/" "team/exe" "./exe" true 7
      (by decide)).2 (by decide)⟩

/-- C2: when the wait is aborted by the timeout or by the interrupt condition,
run terminates the immediate child, sends SIGTERM to the whole process group,
and re-raises the triggering condition; the net-usage line is not logged and
no child exit code is propagated through sys.exit. -/
theorem run_abort_path (rp ep pn cmd : String) (ok : Bool)
    (hpn : (_parse_package_name pn).isSome = true) :
    ((run rp ep pn cmd ok .timedOut).1 = .raised .timeoutExpired ∧
      (run rp ep pn cmd ok .timedOut).2.childTerminated = true ∧
      (run rp ep pn cmd ok .timedOut).2.groupSignals = [SIGTERM] ∧
      (run rp ep pn cmd ok .timedOut).2.netUsageLogged = false ∧
      ∀ c : Int, (run rp ep pn cmd ok .timedOut).1 ≠ .sysExit c) ∧
    ((run rp ep pn cmd ok .interrupted).1 = .raised .interruptedError ∧
      (run rp ep pn cmd ok .interrupted).2.childTerminated = true ∧
      (run rp ep pn cmd ok .interrupted).2.groupSignals = [SIGTERM] ∧
      (run rp ep pn cmd ok .interrupted).2.netUsageLogged = false ∧
      ∀ c : Int, (run rp ep pn cmd ok .interrupted).1 ≠ .sysExit c) := by
  obtain ⟨⟨team, exe⟩, hp⟩ := Option.isSome_iff_exists.mp hpn
  by_cases hL : pyUpper rp = "LOCAL" <;>
    simp [run, _download_executables, run_after_acquire, hp, hL]

/-- C2 witness: a concrete timed-out invocation and a concrete interrupted one
both terminate the child, SIGTERM the group, re-raise, and log no net usage. -/
theorem run_abort_path_witness :
    ((run "LOCAL" "/p/" "team/exe" "./exe" true .timedOut).1 =
        .raised .timeoutExpired ∧
      (run "LOCAL" "/p/" "team/exe" "./exe" true .timedOut).2.childTerminated = true ∧
      (run "LOCAL" "/p/" "team/exe" "./exe" true .timedOut).2.groupSignals = [SIGTERM] ∧
      (run "LOCAL" "/p/" "team/exe" "./exe" true .timedOut).2.netUsageLogged = false ∧
      ∀ c : Int, (run "LOCAL" "/p/" "team/exe" "./exe" true .timedOut).1 ≠ .sysExit c) ∧
    ((run "LOCAL" "/p/" "team/exe" "./exe" true .interrupted).1 =
        .raised .interruptedError ∧
      (run "LOCAL" "/p/" "team/exe" "./exe" true .interrupted).2.childTerminated = true ∧
      (run "LOCAL" "/p/" "team/exe" "./exe" true .interrupted).2.groupSignals = [SIGTERM] ∧
      (run "LOCAL" "/p/" "team/exe" "./exe" true .interrupted).2.netUsageLogged = false ∧
      ∀ c : Int, (run "LOCAL" "/p/" "team/exe" "./exe" true .interrupted).1 ≠ .sysExit c) :=
  run_abort_path "LOCAL" "/p/" "team/exe" "./exe" true (by decide)

/-- C4 counterexample: with repository_path "LOCAL", exe_path "/opt/bin" and
cmd "./myprog --x", the effective command is the bare concatenation
"/opt/bin./myprog --x", not the "/opt/bin/./myprog --x" the claim expects. -/
theorem run_local_concat_counterexample :
    (run "LOCAL" "/opt/bin" "team/myprog" "./myprog --x" true
        (.completed 0)).2.launchedCmd = some "/opt/bin./myprog --x" ∧
    ("/opt/bin./myprog --x" : String) ≠ "/opt/bin/./myprog --x" := by
  exact ⟨by decide, by decide⟩

/-- C4 (amended): when repository_path upper-cases to the sentinel "LOCAL",
the launched command is exe_path ++ cmd — plain string concatenation with no
separator inserted — and when it does not, cmd is launched unmodified. -/
theorem run_normalization (rp ep pn cmd : String) (ok : Bool) (w : WaitOutcome)
    (hpn : (_parse_package_name pn).isSome = true) :
    (pyUpper rp = "LOCAL" →
      (run rp ep pn cmd ok w).2.launchedCmd = some (ep ++ cmd)) ∧
    (pyUpper rp ≠ "LOCAL" →
      (run rp ep pn cmd ok w).2.launchedCmd = some cmd) := by
  obtain ⟨⟨team, exe⟩, hp⟩ := Option.isSome_iff_exists.mp hpn
  constructor <;> intro hL <;> cases w with
  | completed c =>
      by_cases hc : c = 0 <;>
        simp [run, _download_executables, run_after_acquire, hp, hL, hc]
  | timedOut => simp [run, _download_executables, run_after_acquire, hp, hL]
  | interrupted => simp [run, _download_executables, run_after_acquire, hp, hL]

/-- C4 witness: the concrete local scenario launches the concatenation, and a
concrete remote scenario launches cmd untouched. -/
theorem run_normalization_witness :
    (run "LOCAL" "/opt/bin" "team/myprog" "./myprog --x" true
        (.completed 0)).2.launchedCmd = some ("/opt/bin" ++ "./myprog --x") ∧
    (run "https://repo.example.com/" "/opt/bin" "team/myprog"
        "/opt/bin/myprog --x" true (.completed 0)).2.launchedCmd =
      some "/opt/bin/myprog --x" :=
  ⟨(run_normalization "LOCAL" "/opt/bin" "team/myprog" "./myprog --x" true
      (.completed 0) (by decide)).1 (by decide),
    (run_normalization "https://repo.example.com/" "/opt/bin" "team/myprog"
      "/opt/bin/myprog --x" true (.completed 0) (by decide)).2 (by decide)⟩

/-- C8: the outcome and every observable effect of run are identical whether
the chmod +x child process succeeded or failed — its result is discarded, so
run proceeds to command normalization and launches the child regardless. -/
theorem run_ignores_chmod_result (rp ep pn cmd : String) (w : WaitOutcome)
    (a b : Bool) : run rp ep pn cmd a w = run rp ep pn cmd b w := rfl

/-- C9 counterexample: with exe_path "/root/one_docker/package" — a string
other than the fixed download directory "/root/one_docker/package/" — the file
made executable is exactly the file the downloader wrote, contradicting the
claim that differing exe_path implies a different file. -/
theorem download_destination_counterexample :
    ("/root/one_docker/package" : String) ≠ DEFAULT_EXE_FOLDER ∧
    (run "https://repo.example.com/" "/root/one_docker/package" "teamA/toolB"
        "ls" true (.completed 0)).2.copies =
      [{ src := "https://repo.example.com/teamA/toolB",
         dst := "/root/one_docker/package/toolB" }] ∧
    (run "https://repo.example.com/" "/root/one_docker/package" "teamA/toolB"
        "ls" true (.completed 0)).2.chmodPaths =
      ["/root/one_docker/package/toolB"] := by
  exact ⟨by decide, by decide, by decide⟩

/-- C9 (amended): for every non-LOCAL invocation the download destination is
the fixed directory DEFAULT_EXE_FOLDER joined with exe_name, independent of
exe_path (which the downloader never receives); and whenever exe_path followed
by "/" differs as a string from that fixed directory, the path made executable
differs from the path the downloader wrote. -/
theorem download_fixed_destination (rp ep pn cmd : String) (ok : Bool)
    (w : WaitOutcome) (team exe : String)
    (hp : _parse_package_name pn = some (team, exe))
    (hL : pyUpper rp ≠ "LOCAL") :
    (run rp ep pn cmd ok w).2.copies =
      [{ src := rp ++ pn, dst := DEFAULT_EXE_FOLDER ++ exe }] ∧
    (run rp ep pn cmd ok w).2.chmodPaths = [ep ++ "/" ++ exe] ∧
    (ep ++ "/" ≠ DEFAULT_EXE_FOLDER →
      ep ++ "/" ++ exe ≠ DEFAULT_EXE_FOLDER ++ exe) := by
  refine ⟨?_, ?_, ?_⟩
  · cases w with
    | completed c =>
        by_cases hc : c = 0 <;>
          simp [run, _download_executables, run_after_acquire, hp, hL, hc]
    | timedOut => simp [run, _download_executables, run_after_acquire, hp, hL]
    | interrupted => simp [run, _download_executables, run_after_acquire, hp, hL]
  · cases w with
    | completed c =>
        by_cases hc : c = 0 <;>
          simp [run, _download_executables, run_after_acquire, hp, hL, hc]
    | timedOut => simp [run, _download_executables, run_after_acquire, hp, hL]
    | interrupted => simp [run, _download_executables, run_after_acquire, hp, hL]
  · intro hne heq
    apply hne
    apply String.ext
    have hdata := congrArg String.data heq
    simp only [String.data_append] at hdata
    have h2 : (ep.data ++ "/".data) ++ exe.data =
        DEFAULT_EXE_FOLDER.data ++ exe.data := by
      simpa [List.append_assoc] using hdata
    exact List.append_cancel_right h2

/-- C9 witness: a concrete remote invocation downloads to the fixed folder and
chmods a different file when exe_path is "/opt/bin". -/
theorem download_fixed_destination_witness :
    (run "https://repo.example.com/" "/opt/bin" "teamA/toolB" "ls" true
        (.completed 0)).2.copies =
      [{ src := "https://repo.example.com/" ++ "teamA/toolB",
         dst := DEFAULT_EXE_FOLDER ++ "toolB" }] ∧
    (run "https://repo.example.com/" "/opt/bin" "teamA/toolB" "ls" true
        (.completed 0)).2.chmodPaths = ["/opt/bin" ++ "/" ++ "toolB"] ∧
    "/opt/bin" ++ "/" ++ "toolB" ≠ DEFAULT_EXE_FOLDER ++ "toolB" :=
  have h := download_fixed_destination "https://repo.example.com/" "/opt/bin"
    "teamA/toolB" "ls" true (.completed 0) "teamA" "toolB" (by decide) (by decide)
  ⟨h.1, h.2.1, h.2.2 (by decide)⟩

/-- C10: the non-zero-exit branch of run is uniform in the child's return
code, covering the negative codes produced when the child dies by a signal:
run logs the code verbatim and calls sys.exit with that exact value. -/
theorem run_nonzero_uniform (rp ep pn cmd : String) (ok : Bool) (c : Int)
    (hpn : (_parse_package_name pn).isSome = true) (hc : c ≠ 0) :
    (run rp ep pn cmd ok (.completed c)).1 = .sysExit c ∧
    ("Subprocess returned non-zero return code: " ++ toString c) ∈
      (run rp ep pn cmd ok (.completed c)).2.logs ∧
    launcher_exit_status (run rp ep pn cmd ok (.completed c)).1 = some c := by
  obtain ⟨⟨team, exe⟩, hp⟩ := Option.isSome_iff_exists.mp hpn
  by_cases hL : pyUpper rp = "LOCAL" <;>
    simp [run, _download_executables, run_after_acquire, hp, hL, hc,
      launcher_exit_status]

/-- C10 witness: a child terminated by SIGTERM reports -15, and run logs the
literal -15 and exits with exactly -15. -/
theorem run_nonzero_uniform_witness :
    (run "LOCAL" "/p/" "team/exe" "./exe" true (.completed (-15))).1 =
      .sysExit (-15) ∧
    ("Subprocess returned non-zero return code: " ++ toString (-15 : Int)) ∈
      (run "LOCAL" "/p/" "team/exe" "./exe" true (.completed (-15))).2.logs ∧
    launcher_exit_status
      (run "LOCAL" "/p/" "team/exe" "./exe" true (.completed (-15))).1 =
        some (-15) :=
  run_nonzero_uniform "LOCAL" "/p/" "team/exe" "./exe" true (-15)
    (by decide) (by decide)

end OneDocker
